import Mathlib

/-!
Shallow embedding of the double-entry ledger / transfer-posting core of the
jezdene-pay-magic repository.

Sources embedded here:
* the banking schema and stored procedure `post_transfer`
  (migration file: tables `accounts`, `transfers`, `ledger_entries`,
  view `account_balances`, function `public.post_transfer`);
* the platform-treasury provisioning migration (unbalanced seed credit);
* the Stripe webhook fallback branch that inserts a direct credit
  (`stripe-webhook-fixed.ts`);
* the `send_to_user` RPC's validation of transfer creation together with the
  `transfers` table CHECK constraints.

Monetary amounts (SQL `NUMERIC(18,2)`) are represented as integer cents
(`Int`); timestamps (`TIMESTAMPTZ`) as abstract `Nat` ticks; UUIDs as `Nat`
identifiers.  Database errors (`RAISE EXCEPTION`, CHECK violations, unique
index violations) are modelled with `Except` over explicit error kinds.
-/

namespace PayMagic

/-- Enum `public.account_status`: `('active', 'frozen', 'closed')`. -/
inductive AccountStatus where
  | active
  | frozen
  | closed
deriving DecidableEq, Repr

/-- Enum `public.account_type`: `('wallet', 'savings', 'escrow')`. -/
inductive AccountType where
  | wallet
  | savings
  | escrow
deriving DecidableEq, Repr

/-- Enum `public.transfer_status`:
`('pending', 'posted', 'failed', 'cancelled', 'reversed')`. -/
inductive TransferStatus where
  | pending
  | posted
  | failed
  | cancelled
  | reversed
deriving DecidableEq, Repr

/-- Enum `public.entry_type`: `('debit', 'credit')`. -/
inductive EntryType where
  | debit
  | credit
deriving DecidableEq, Repr

/-- A row of `public.accounts`. -/
structure Account where
  id : Nat
  user_id : Nat
  type : AccountType
  currency : String
  status : AccountStatus
  name : String
  created_at : Nat
  updated_at : Nat
deriving DecidableEq, Repr

/-- A row of `public.transfers`. -/
structure Transfer where
  id : Nat
  from_account_id : Nat
  to_account_id : Nat
  amount : Int
  currency : String
  status : TransferStatus
  description : Option String
  external_ref : Option String
  initiated_by : Nat
  created_at : Nat
  posted_at : Option Nat
  failed_reason : Option String
deriving DecidableEq, Repr

/-- A row of `public.ledger_entries`. -/
structure LedgerEntry where
  id : Nat
  account_id : Nat
  transfer_id : Option Nat
  type : EntryType
  amount : Int
  currency : String
  created_at : Nat
deriving DecidableEq, Repr

/-- The database state: the three core tables plus an id generator standing in
for `gen_random_uuid()`. -/
structure DB where
  accounts : List Account
  transfers : List Transfer
  ledger_entries : List LedgerEntry
  next_id : Nat
deriving DecidableEq, Repr

/-- The empty database, before any migration or operation has run. -/
def emptyDB : DB := ⟨[], [], [], 0⟩

/-- Row lookup `SELECT * FROM public.transfers WHERE id = _transfer_id`. -/
def findTransfer (db : DB) (tid : Nat) : Option Transfer :=
  db.transfers.find? (fun u => decide (u.id = tid))

/-- Row lookup `SELECT * FROM public.accounts WHERE id = _account_id`. -/
def findAccount (db : DB) (aid : Nat) : Option Account :=
  db.accounts.find? (fun a => decide (a.id = aid))

/-- Error kinds raised by `public.post_transfer` (the four
`RAISE EXCEPTION` sites, in source order). -/
inductive PostError where
  | NotFound
  | InvalidState
  | InvalidAccount
  | CurrencyMismatch
deriving DecidableEq, Repr

/-- The first `INSERT INTO public.ledger_entries` of `post_transfer`: the
debit row on the source account. -/
def postingDebitRow (db : DB) (t : Transfer) (now : Nat) : LedgerEntry :=
  { id := db.next_id, account_id := t.from_account_id,
    transfer_id := some t.id, type := EntryType.debit,
    amount := t.amount, currency := t.currency, created_at := now }

/-- The second `INSERT INTO public.ledger_entries` of `post_transfer`: the
credit row on the destination account. -/
def postingCreditRow (db : DB) (t : Transfer) (now : Nat) : LedgerEntry :=
  { id := db.next_id + 1, account_id := t.to_account_id,
    transfer_id := some t.id, type := EntryType.credit,
    amount := t.amount, currency := t.currency, created_at := now }

/-- The mutation step of `post_transfer` once all validations have passed:
the two `INSERT INTO public.ledger_entries` statements (a debit on the source
account and a credit on the destination, both referencing the transfer) and
the `UPDATE public.transfers SET status = 'posted', posted_at = now()`. -/
def applyPosting (db : DB) (t : Transfer) (now : Nat) : DB :=
  { db with
    ledger_entries := db.ledger_entries ++
      [postingDebitRow db t now, postingCreditRow db t now],
    transfers := db.transfers.map (fun u =>
      if u.id = t.id then
        { u with status := TransferStatus.posted, posted_at := some now }
      else u),
    next_id := db.next_id + 2 }

/-- Procedure `public.post_transfer(_transfer_id UUID)`: select the transfer row
(`FOR UPDATE`; under the lock the procedure body is sequential, which is what
this function models), raise if missing, raise if not `pending`, look up both
account currencies, raise if either account is missing, raise on currency
mismatch, then insert the debit/credit pair and mark the transfer posted. -/
def post_transfer (db : DB) (tid : Nat) (now : Nat) : Except PostError DB :=
  match findTransfer db tid with
  | none => Except.error PostError.NotFound
  | some t =>
    if t.status ≠ TransferStatus.pending then
      Except.error PostError.InvalidState
    else
      match findAccount db t.from_account_id, findAccount db t.to_account_id with
      | some fa, some ta =>
        if fa.currency ≠ t.currency ∨ ta.currency ≠ t.currency then
          Except.error PostError.CurrencyMismatch
        else
          Except.ok (applyPosting db t now)
      | _, _ => Except.error PostError.InvalidAccount

/-- The `balance` column of the `public.account_balances` view:
`COALESCE(SUM(CASE WHEN type = 'credit' THEN amount ELSE 0 END), 0)
 - COALESCE(SUM(CASE WHEN type = 'debit' THEN amount ELSE 0 END), 0)`
over the ledger entries of one account. -/
def balanceOf (db : DB) (aid : Nat) : Int :=
  ((db.ledger_entries.filter (fun e => decide (e.account_id = aid))).map
    (fun e => if e.type = EntryType.credit then e.amount else 0)).sum
    - ((db.ledger_entries.filter (fun e => decide (e.account_id = aid))).map
      (fun e => if e.type = EntryType.debit then e.amount else 0)).sum

/-- The signed value of one ledger entry: credits count positive, debits
negative (the double-entry convention of the spec's zero-sum property). -/
def entrySigned (e : LedgerEntry) : Int :=
  match e.type with
  | EntryType.credit => e.amount
  | EntryType.debit => -e.amount

/-- The signed sum of all ledger entries of one currency across the whole
database (the quantity the zero-sum invariant speaks about). -/
def currencySum (db : DB) (c : String) : Int :=
  ((db.ledger_entries.filter (fun e => decide (e.currency = c))).map
    entrySigned).sum

/-- Error kinds for account creation: `accounts_currency_chk` CHECK and the
`accounts_user_type_currency_name_uidx` unique index. -/
inductive CreateAccountError where
  | InvalidCurrency
  | DuplicateAccount
deriving DecidableEq, Repr

/-- Statement `INSERT INTO public.accounts (user_id, type, currency, name)`:
the row must satisfy `accounts_currency_chk` (`char_length(currency) = 3`),
the `(user_id, type, currency, name)` unique index must not already contain
the tuple, and the new row gets status `active` (column default). -/
def create_account (db : DB) (user : Nat) (ty : AccountType)
    (cur nm : String) (now : Nat) : Except CreateAccountError (DB × Nat) :=
  if cur.length ≠ 3 then
    Except.error CreateAccountError.InvalidCurrency
  else if db.accounts.any (fun a =>
      decide (a.user_id = user ∧ a.type = ty ∧ a.currency = cur ∧ a.name = nm)) then
    Except.error CreateAccountError.DuplicateAccount
  else
    Except.ok
      ({ db with
          accounts := db.accounts ++
            [ { id := db.next_id, user_id := user, type := ty, currency := cur,
                status := AccountStatus.active, name := nm,
                created_at := now, updated_at := now } ],
          next_id := db.next_id + 1 }, db.next_id)

/-- Error kinds for transfer creation: the `transfers` table CHECK
constraints `transfers_accounts_distinct`, `transfers_positive_amount` and
`transfers_currency_len`. -/
inductive CreateTransferError where
  | SameAccount
  | InvalidAmount
  | InvalidCurrency
deriving DecidableEq, Repr

/-- Statement `INSERT INTO public.transfers (from_account_id, to_account_id,
amount, currency, description, initiated_by)`: the row must satisfy
`transfers_accounts_distinct` (`from_account_id <> to_account_id`),
`transfers_positive_amount` (`amount > 0`) and `transfers_currency_len`
(`char_length(currency) = 3`); the new row gets status `pending` (column
default) and `posted_at`/`failed_reason` NULL. -/
def create_transfer (db : DB) (fromA toA : Nat) (amount : Int)
    (cur : String) (descr : Option String) (initiator : Nat) (now : Nat) :
    Except CreateTransferError (DB × Nat) :=
  if fromA = toA then
    Except.error CreateTransferError.SameAccount
  else if amount ≤ 0 then
    Except.error CreateTransferError.InvalidAmount
  else if cur.length ≠ 3 then
    Except.error CreateTransferError.InvalidCurrency
  else
    Except.ok
      ({ db with
          transfers := db.transfers ++
            [ { id := db.next_id, from_account_id := fromA,
                to_account_id := toA, amount := amount, currency := cur,
                status := TransferStatus.pending, description := descr,
                external_ref := none, initiated_by := initiator,
                created_at := now, posted_at := none,
                failed_reason := none } ],
          next_id := db.next_id + 1 }, db.next_id)

/-- The fixed platform user id of the treasury provisioning migration
(`'00000000-0000-0000-0000-000000000001'`). -/
def treasuryUserId : Nat := 1

/-- The treasury seed amount: `1000000.00` dollars, i.e. 100000000 cents. -/
def treasurySeedAmount : Int := 100000000

/-- The ledger row of the treasury seed's `INSERT INTO public.ledger_entries
... SELECT`: an unmatched credit of the seed amount on the given account. -/
def seedCreditRow (now : Nat) (acc : DB) (a : Account) : LedgerEntry :=
  { id := acc.next_id, account_id := a.id, transfer_id := none,
    type := EntryType.credit, amount := treasurySeedAmount,
    currency := "USD", created_at := now }

/-- Appending one treasury-seed credit row to the ledger. -/
def seedCredit (now : Nat) (acc : DB) (a : Account) : DB :=
  { acc with
    ledger_entries := acc.ledger_entries ++ [seedCreditRow now acc a],
    next_id := acc.next_id + 1 }

/-- The treasury account row inserted by the provisioning migration. -/
def seedTreasuryRow (db : DB) (now : Nat) : Account :=
  { id := db.next_id, user_id := treasuryUserId,
    type := AccountType.wallet, currency := "USD",
    status := AccountStatus.active, name := "Treasury",
    created_at := now, updated_at := now }

/-- The treasury provisioning migration: insert the platform treasury
account (`ON CONFLICT (user_id, type, currency, name) DO NOTHING`), then
`INSERT INTO public.ledger_entries ... SELECT a.id, 'credit', 1000000.00,
'USD' FROM public.accounts a WHERE a.user_id = platform_user_id AND
a.currency = 'USD' AND a.name = 'Treasury' AND NOT EXISTS (ledger entries
for a)` — a single unmatched credit per fresh treasury account. -/
def seed_treasury (db : DB) (now : Nat) : DB :=
  let db1 :=
    if db.accounts.any (fun a =>
        decide (a.user_id = treasuryUserId ∧ a.type = AccountType.wallet ∧
          a.currency = "USD" ∧ a.name = "Treasury")) then
      db
    else
      { db with
        accounts := db.accounts ++ [seedTreasuryRow db now],
        next_id := db.next_id + 1 }
  let targets := db1.accounts.filter (fun a =>
    decide (a.user_id = treasuryUserId ∧ a.currency = "USD" ∧
      a.name = "Treasury") &&
    db1.ledger_entries.all (fun e => decide (e.account_id ≠ a.id)))
  targets.foldl (seedCredit now) db1

/-- The `Main` USD wallet account row inserted by the webhook fallback for a
seller without any USD account. -/
def webhookMainRow (db : DB) (sellerUser : Nat) (now : Nat) : Account :=
  { id := db.next_id, user_id := sellerUser,
    type := AccountType.wallet, currency := "USD",
    status := AccountStatus.active, name := "Main",
    created_at := now, updated_at := now }

/-- The Stripe webhook fallback branch (`stripe-webhook-fixed.ts`, the
`PLATFORM_USER_ID not set` path): resolve the seller's `Main` USD account,
else any USD account of the seller, else insert a fresh `Main` USD wallet
account; then insert a direct credit ledger entry on it (no transfer
reference). -/
def webhook_fallback_credit (db : DB) (sellerUser : Nat) (amount : Int)
    (now : Nat) : DB :=
  match db.accounts.find? (fun a =>
      decide (a.user_id = sellerUser ∧ a.currency = "USD" ∧
        a.name = "Main")) with
  | some a =>
    { db with
      ledger_entries := db.ledger_entries ++
        [ { id := db.next_id, account_id := a.id, transfer_id := none,
            type := EntryType.credit, amount := amount, currency := "USD",
            created_at := now } ],
      next_id := db.next_id + 1 }
  | none =>
    match db.accounts.find? (fun a =>
        decide (a.user_id = sellerUser ∧ a.currency = "USD")) with
    | some a =>
      { db with
        ledger_entries := db.ledger_entries ++
          [ { id := db.next_id, account_id := a.id, transfer_id := none,
              type := EntryType.credit, amount := amount, currency := "USD",
              created_at := now } ],
        next_id := db.next_id + 1 }
    | none =>
      { db with
        accounts := db.accounts ++ [webhookMainRow db sellerUser now],
        ledger_entries := db.ledger_entries ++
          [ { id := db.next_id + 1, account_id := db.next_id,
              transfer_id := none, type := EntryType.credit, amount := amount,
              currency := "USD", created_at := now } ],
        next_id := db.next_id + 2 }

/-- The operations that write to the core tables: account creation, transfer
creation, posting, the treasury provisioning migration, and the webhook
fallback direct credit. -/
inductive Op where
  | createAccount (user : Nat) (ty : AccountType) (cur nm : String) (now : Nat)
  | createTransfer (fromA toA : Nat) (amount : Int) (cur : String)
      (descr : Option String) (initiator : Nat) (now : Nat)
  | post (tid : Nat) (now : Nat)
  | seedTreasury (now : Nat)
  | webhookCredit (sellerUser : Nat) (amount : Int) (now : Nat)
deriving DecidableEq, Repr

/-- Run one operation against the database.  A failing operation (a raised
exception or a violated constraint) aborts its transaction and leaves the
state unchanged.  The webhook credit is additionally gated by the
`ledger_amount_positive` CHECK on `ledger_entries`. -/
def applyOp (db : DB) : Op → DB
  | Op.createAccount u ty c n now =>
    match create_account db u ty c n now with
    | Except.ok (db2, _) => db2
    | Except.error _ => db
  | Op.createTransfer f t a c d i now =>
    match create_transfer db f t a c d i now with
    | Except.ok (db2, _) => db2
    | Except.error _ => db
  | Op.post tid now =>
    match post_transfer db tid now with
    | Except.ok db2 => db2
    | Except.error _ => db
  | Op.seedTreasury now => seed_treasury db now
  | Op.webhookCredit u a now =>
    if a ≤ 0 then db else webhook_fallback_credit db u a now

/-- Whether an operation is a posting-engine call. -/
def Op.isPost : Op → Bool
  | Op.post _ _ => true
  | _ => false

/-- Whether an operation writes ledger entries directly, outside the posting
engine (the treasury seed and the webhook fallback credit). -/
def Op.isDirectLedgerWrite : Op → Bool
  | Op.seedTreasury _ => true
  | Op.webhookCredit _ _ _ => true
  | _ => false

/-- States reachable from the empty database by the system's operations. -/
inductive Reachable : DB → Prop where
  | init : Reachable emptyDB
  | step {db : DB} (h : Reachable db) (op : Op) : Reachable (applyOp db op)

/-- States reachable using only account creation, transfer creation and
posting — excluding the two direct ledger writers. -/
inductive ReachableCore : DB → Prop where
  | init : ReachableCore emptyDB
  | step {db : DB} (h : ReachableCore db) (op : Op)
      (hop : Op.isDirectLedgerWrite op = false) : ReachableCore (applyOp db op)

/-! Concrete fixtures used by the witness theorems. -/

/-- Fixture: a USD wallet account with id 0. -/
def exAccountA : Account :=
  { id := 0, user_id := 10, type := AccountType.wallet, currency := "USD",
    status := AccountStatus.active, name := "Main",
    created_at := 0, updated_at := 0 }

/-- Fixture: a USD wallet account with id 1. -/
def exAccountB : Account :=
  { id := 1, user_id := 11, type := AccountType.wallet, currency := "USD",
    status := AccountStatus.active, name := "Main",
    created_at := 0, updated_at := 0 }

/-- Fixture: a pending USD transfer of 100.00 (10000 cents) from account 0
to account 1, with id 2. -/
def exTransfer : Transfer :=
  { id := 2, from_account_id := 0, to_account_id := 1, amount := 10000,
    currency := "USD", status := TransferStatus.pending, description := none,
    external_ref := none, initiated_by := 10, created_at := 0,
    posted_at := none, failed_reason := none }

/-- Fixture: two USD accounts and one pending USD transfer between them. -/
def exDB : DB := ⟨[exAccountA, exAccountB], [exTransfer], [], 3⟩

/-- Fixture: `exDB` after the pending transfer has been posted at time 7. -/
def exDBposted : DB := applyPosting exDB exTransfer 7

/-- Fixture: a pending transfer declared in EUR between the two USD
accounts. -/
def exTransferEUR : Transfer :=
  { exTransfer with currency := "EUR" }

/-- Fixture: two USD accounts and a pending EUR-declared transfer. -/
def exDBmm : DB := ⟨[exAccountA, exAccountB], [exTransferEUR], [], 3⟩

/-- Fixture: account 0 frozen. -/
def exAccountAF : Account := { exAccountA with status := AccountStatus.frozen }

/-- Fixture: account 1 closed. -/
def exAccountBC : Account := { exAccountB with status := AccountStatus.closed }

/-- Fixture: a frozen source, a closed destination, and a pending USD
transfer between them; both accounts have an empty ledger. -/
def exDBF : DB := ⟨[exAccountAF, exAccountBC], [exTransfer], [], 3⟩

/-! Inversion and frame lemmas about the posting engine. -/

theorem findTransfer_id {db : DB} {tid : Nat} {t : Transfer}
    (h : findTransfer db tid = some t) : t.id = tid := by
  unfold findTransfer at h
  have hp := List.find?_some h
  exact of_decide_eq_true hp

theorem post_transfer_ok_elim {db db2 : DB} {tid now : Nat}
    (h : post_transfer db tid now = Except.ok db2) :
    ∃ t fa ta,
      findTransfer db tid = some t ∧ t.status = TransferStatus.pending ∧
      findAccount db t.from_account_id = some fa ∧
      findAccount db t.to_account_id = some ta ∧
      fa.currency = t.currency ∧ ta.currency = t.currency ∧
      db2 = applyPosting db t now := by
  unfold post_transfer at h
  split at h
  · exact absurd h (by simp)
  next t hft =>
    split at h
    · exact absurd h (by simp)
    next hpend =>
      split at h
      next fa ta hfa hta =>
        split at h
        · exact absurd h (by simp)
        next hcur =>
          refine ⟨t, fa, ta, hft, not_not.mp hpend, hfa, hta,
            not_not.mp (not_or.mp hcur).1, not_not.mp (not_or.mp hcur).2, ?_⟩
          cases h
          rfl
      all_goals exact absurd h (by simp)

/-- C1: posting a pending transfer whose two accounts exist with matching
currencies succeeds and appends exactly two ledger entries — a debit on the
source and a credit on the destination, each carrying the transfer's amount,
currency and id — sets the transfer's status to `posted` with its posted
timestamp, and touches no other ledger entry, transfer or account. -/
theorem C1_post_appends_balanced_pair
    (db : DB) (tid now : Nat) (t : Transfer) (fa ta : Account)
    (h1 : findTransfer db tid = some t)
    (h2 : t.status = TransferStatus.pending)
    (h3 : findAccount db t.from_account_id = some fa)
    (h4 : findAccount db t.to_account_id = some ta)
    (h5 : fa.currency = t.currency)
    (h6 : ta.currency = t.currency) :
    ∃ db2, post_transfer db tid now = Except.ok db2 ∧
      (∃ d c, db2.ledger_entries = db.ledger_entries ++ [d, c] ∧
        d.account_id = t.from_account_id ∧ d.type = EntryType.debit ∧
        d.amount = t.amount ∧ d.currency = t.currency ∧
        d.transfer_id = some t.id ∧
        c.account_id = t.to_account_id ∧ c.type = EntryType.credit ∧
        c.amount = t.amount ∧ c.currency = t.currency ∧
        c.transfer_id = some t.id) ∧
      db2.transfers = db.transfers.map (fun u =>
        if u.id = t.id then
          { u with status := TransferStatus.posted, posted_at := some now }
        else u) ∧
      db2.accounts = db.accounts := by
  refine ⟨applyPosting db t now, ?_, ⟨_, _, rfl, rfl, rfl, rfl, rfl, rfl,
    rfl, rfl, rfl, rfl, rfl⟩, rfl, rfl⟩
  unfold post_transfer
  rw [h1]
  simp [h2, h3, h4, h5, h6]

/-- Witness for C1 on the concrete two-account fixture. -/
theorem C1_witness :
    ∃ db2, post_transfer exDB 2 7 = Except.ok db2 ∧
      (∃ d c, db2.ledger_entries = exDB.ledger_entries ++ [d, c] ∧
        d.account_id = exTransfer.from_account_id ∧
        d.type = EntryType.debit ∧ d.amount = exTransfer.amount ∧
        d.currency = exTransfer.currency ∧
        d.transfer_id = some exTransfer.id ∧
        c.account_id = exTransfer.to_account_id ∧
        c.type = EntryType.credit ∧ c.amount = exTransfer.amount ∧
        c.currency = exTransfer.currency ∧
        c.transfer_id = some exTransfer.id) ∧
      db2.transfers = exDB.transfers.map (fun u =>
        if u.id = exTransfer.id then
          { u with status := TransferStatus.posted, posted_at := some 7 }
        else u) ∧
      db2.accounts = exDB.accounts :=
  C1_post_appends_balanced_pair exDB 2 7 exTransfer exAccountA exAccountB
    rfl rfl rfl rfl rfl rfl

/-- C10: the posting engine's success condition is complete over transfer
status, account existence and currency equality — posting succeeds with no
check on either account's status and no sufficient-funds check on the
source's balance. -/
theorem C10_no_status_or_funds_check
    (db : DB) (tid now : Nat) (t : Transfer) (fa ta : Account)
    (h1 : findTransfer db tid = some t)
    (h2 : t.status = TransferStatus.pending)
    (h3 : findAccount db t.from_account_id = some fa)
    (h4 : findAccount db t.to_account_id = some ta)
    (h5 : fa.currency = t.currency)
    (h6 : ta.currency = t.currency) :
    ∃ db2, post_transfer db tid now = Except.ok db2 := by
  refine ⟨applyPosting db t now, ?_⟩
  unfold post_transfer
  rw [h1]
  simp [h2, h3, h4, h5, h6]

/-- Witness for C10: posting succeeds between a frozen source and a closed
destination, both with zero balance, and drives the source balance to
−100.00. -/
theorem C10_witness :
    (∃ db2, post_transfer exDBF 2 7 = Except.ok db2) ∧
    exAccountAF.status = AccountStatus.frozen ∧
    exAccountBC.status = AccountStatus.closed ∧
    balanceOf exDBF 0 = 0 ∧
    balanceOf (applyOp exDBF (Op.post 2 7)) 0 = -10000 :=
  ⟨C10_no_status_or_funds_check exDBF 2 7 exTransfer exAccountAF exAccountBC
      rfl rfl rfl rfl rfl rfl,
    rfl, rfl, by decide, by decide⟩

/-- C4: the posting engine's validations run in source order — missing
transfer, then non-pending status, then missing account, then currency
mismatch — each reported as its own error kind, and any failure leaves the
database unchanged. -/
theorem C4_validation_order (db : DB) (tid now : Nat) :
    (findTransfer db tid = none →
      post_transfer db tid now = Except.error PostError.NotFound) ∧
    (∀ t, findTransfer db tid = some t → t.status ≠ TransferStatus.pending →
      post_transfer db tid now = Except.error PostError.InvalidState) ∧
    (∀ t, findTransfer db tid = some t → t.status = TransferStatus.pending →
      (findAccount db t.from_account_id = none ∨
        findAccount db t.to_account_id = none) →
      post_transfer db tid now = Except.error PostError.InvalidAccount) ∧
    (∀ t fa ta, findTransfer db tid = some t →
      t.status = TransferStatus.pending →
      findAccount db t.from_account_id = some fa →
      findAccount db t.to_account_id = some ta →
      (fa.currency ≠ t.currency ∨ ta.currency ≠ t.currency) →
      post_transfer db tid now = Except.error PostError.CurrencyMismatch) ∧
    (∀ e, post_transfer db tid now = Except.error e →
      applyOp db (Op.post tid now) = db) := by
  refine ⟨?_, ?_, ?_, ?_, ?_⟩
  · intro h
    unfold post_transfer
    rw [h]
  · intro t ht hs
    unfold post_transfer
    rw [ht]
    simp [hs]
  · intro t ht hs hmiss
    unfold post_transfer
    rw [ht]
    rcases hmiss with hm | hm
    · cases hto : findAccount db t.to_account_id <;> simp [hs, hm, hto]
    · cases hfrom : findAccount db t.from_account_id <;> simp [hs, hm, hfrom]
  · intro t fa ta ht hs hfa hta hcur
    unfold post_transfer
    rw [ht]
    rcases hcur with hc | hc <;> simp [hs, hfa, hta, hc]
  · intro e he
    simp [applyOp, he]

/-- Witness for C4: a missing transfer reports `NotFound`; an EUR-declared
transfer between USD accounts reports `CurrencyMismatch`; the failing call
leaves the database unchanged. -/
theorem C4_witness :
    post_transfer exDBmm 99 0 = Except.error PostError.NotFound ∧
    post_transfer exDBmm 2 0 = Except.error PostError.CurrencyMismatch ∧
    applyOp exDBmm (Op.post 2 0) = exDBmm :=
  ⟨(C4_validation_order exDBmm 99 0).1 rfl,
    (C4_validation_order exDBmm 2 0).2.2.2.1 exTransferEUR exAccountA
      exAccountB rfl rfl rfl rfl (Or.inl (by decide)),
    (C4_validation_order exDBmm 2 0).2.2.2.2 PostError.CurrencyMismatch
      ((C4_validation_order exDBmm 2 0).2.2.2.1 exTransferEUR exAccountA
        exAccountB rfl rfl rfl rfl (Or.inl (by decide)))⟩

theorem find?_post_update (l : List Transfer) (tid now : Nat) (t : Transfer)
    (h : l.find? (fun u => decide (u.id = tid)) = some t) :
    (l.map (fun u =>
        if u.id = t.id then
          { u with status := TransferStatus.posted, posted_at := some now }
        else u)).find? (fun u => decide (u.id = tid)) =
      some { t with status := TransferStatus.posted, posted_at := some now } := by
  have hp := List.find?_some h
  have hid : t.id = tid := of_decide_eq_true hp
  clear hp
  revert h
  induction l with
  | nil => intro h; simp at h
  | cons a l ih =>
    intro h
    by_cases pa : a.id = tid
    · rw [List.find?_cons_of_pos _ (by simpa using pa)] at h
      cases h
      simp only [List.map_cons, if_pos rfl]
      exact List.find?_cons_of_pos _ (by simpa using hid)
    · rw [List.find?_cons_of_neg _ (by simpa using pa)] at h
      have hne : ¬ a.id = t.id := by rw [hid]; exact pa
      simp only [List.map_cons, if_neg hne]
      rw [List.find?_cons_of_neg _ (by simpa using pa)]
      exact ih h

theorem findTransfer_applyPosting {db : DB} {tid now : Nat} {t : Transfer}
    (h : findTransfer db tid = some t) :
    findTransfer (applyPosting db t now) tid =
      some { t with status := TransferStatus.posted, posted_at := some now } := by
  unfold findTransfer at h
  unfold findTransfer applyPosting
  exact find?_post_update db.transfers tid now t h

/-- C3: once a transfer has been posted, a second `post_transfer` call on it
fails with `InvalidState`, and the only ledger entries referencing the
transfer are the debit/credit pair created by the first call. -/
theorem C3_no_double_posting (db db2 : DB) (tid now now2 : Nat)
    (hok : post_transfer db tid now = Except.ok db2)
    (hfresh : ∀ e ∈ db.ledger_entries, e.transfer_id ≠ some tid) :
    post_transfer db2 tid now2 = Except.error PostError.InvalidState ∧
    applyOp db2 (Op.post tid now2) = db2 ∧
    ∃ d c, db2.ledger_entries.filter
        (fun e => decide (e.transfer_id = some tid)) = [d, c] ∧
      d.type = EntryType.debit ∧ c.type = EntryType.credit ∧
      d.amount = c.amount ∧
      d.transfer_id = some tid ∧ c.transfer_id = some tid := by
  obtain ⟨t, fa, ta, ht, hs, hfa, hta, h5, h6, rfl⟩ := post_transfer_ok_elim hok
  have hid : t.id = tid := findTransfer_id ht
  have hsecond :
      post_transfer (applyPosting db t now) tid now2 =
        Except.error PostError.InvalidState := by
    unfold post_transfer
    rw [findTransfer_applyPosting ht]
    simp
  refine ⟨hsecond, by simp [applyOp, hsecond], ?_⟩
  refine ⟨postingDebitRow db t now, postingCreditRow db t now,
    ?_, rfl, rfl, rfl, by simp [postingDebitRow, hid],
    by simp [postingCreditRow, hid]⟩
  show List.filter _ (db.ledger_entries ++ [_, _]) = _
  rw [List.filter_append]
  rw [List.filter_eq_nil_iff.mpr (by intro e he; simpa using hfresh e he)]
  simp [postingDebitRow, postingCreditRow, hid]

/-- Witness for C3 on the concrete fixture, posted at time 7 and re-posted
at time 8. -/
theorem C3_witness :
    post_transfer exDBposted 2 8 = Except.error PostError.InvalidState ∧
    applyOp exDBposted (Op.post 2 8) = exDBposted ∧
    ∃ d c, exDBposted.ledger_entries.filter
        (fun e => decide (e.transfer_id = some 2)) = [d, c] ∧
      d.type = EntryType.debit ∧ c.type = EntryType.credit ∧
      d.amount = c.amount ∧
      d.transfer_id = some 2 ∧ c.transfer_id = some 2 :=
  C3_no_double_posting exDB exDBposted 2 7 8 rfl
    (by intro e he; simp [exDB] at he)

theorem sum_ite_eq_sum_filter (q : LedgerEntry → Prop) [DecidablePred q]
    (es : List LedgerEntry) :
    (es.map (fun e => if q e then e.amount else 0)).sum =
      ((es.filter (fun e => decide (q e))).map LedgerEntry.amount).sum := by
  induction es with
  | nil => rfl
  | cons a es ih => by_cases h : q a <;> simp [h, ih]

/-- C6: the `account_balances` view computes, for every account, the sum of
its credit entries' amounts minus the sum of its debit entries' amounts, and
yields 0 for an account with no entries. -/
theorem C6_balance_is_credits_minus_debits (db : DB) (aid : Nat) :
    balanceOf db aid =
      (((db.ledger_entries.filter (fun e => decide (e.account_id = aid))).filter
          (fun e => decide (e.type = EntryType.credit))).map
        LedgerEntry.amount).sum -
      (((db.ledger_entries.filter (fun e => decide (e.account_id = aid))).filter
          (fun e => decide (e.type = EntryType.debit))).map
        LedgerEntry.amount).sum ∧
    (db.ledger_entries.filter (fun e => decide (e.account_id = aid)) = [] →
      balanceOf db aid = 0) := by
  constructor
  · unfold balanceOf
    rw [sum_ite_eq_sum_filter (fun e => e.type = EntryType.credit),
      sum_ite_eq_sum_filter (fun e => e.type = EntryType.debit)]
  · intro h
    unfold balanceOf
    rw [h]
    rfl

/-- Witness for C6: on the posted fixture, account 0 has one debit of 10000
and no credits, and the unknown account 99 with no entries balances to 0. -/
theorem C6_witness :
    (balanceOf exDBposted 0 =
      (((exDBposted.ledger_entries.filter
            (fun e => decide (e.account_id = 0))).filter
          (fun e => decide (e.type = EntryType.credit))).map
        LedgerEntry.amount).sum -
      (((exDBposted.ledger_entries.filter
            (fun e => decide (e.account_id = 0))).filter
          (fun e => decide (e.type = EntryType.debit))).map
        LedgerEntry.amount).sum) ∧
    exDBposted.ledger_entries.filter (fun e => decide (e.account_id = 99)) = [] ∧
    balanceOf exDBposted 99 = 0 :=
  ⟨(C6_balance_is_credits_minus_debits exDBposted 0).1, by decide,
    (C6_balance_is_credits_minus_debits exDBposted 99).2 (by decide)⟩

theorem balanceOf_applyPosting (db : DB) (t : Transfer) (now : Nat)
    (aid : Nat) :
    balanceOf (applyPosting db t now) aid =
      balanceOf db aid +
        (if t.to_account_id = aid then t.amount else 0) -
        (if t.from_account_id = aid then t.amount else 0) := by
  unfold balanceOf applyPosting postingDebitRow postingCreditRow
  simp only [List.filter_append, List.map_append, List.sum_append]
  by_cases h1 : t.from_account_id = aid <;>
    by_cases h2 : t.to_account_id = aid <;>
      simp [h1, h2, List.filter_cons] <;> omega

/-- C7: a successful posting of a transfer with amount `m` from account A to
account B decreases `balanceOf A` by exactly `m`, increases `balanceOf B` by
exactly `m`, and leaves every other account's balance unchanged. -/
theorem C7_balance_delta (db db2 : DB) (tid now : Nat) (t : Transfer)
    (hok : post_transfer db tid now = Except.ok db2)
    (ht : findTransfer db tid = some t)
    (hne : t.from_account_id ≠ t.to_account_id) :
    balanceOf db2 t.from_account_id =
      balanceOf db t.from_account_id - t.amount ∧
    balanceOf db2 t.to_account_id =
      balanceOf db t.to_account_id + t.amount ∧
    ∀ x, x ≠ t.from_account_id → x ≠ t.to_account_id →
      balanceOf db2 x = balanceOf db x := by
  obtain ⟨t', fa, ta, ht', hs, hfa, hta, h5, h6, rfl⟩ :=
    post_transfer_ok_elim hok
  rw [ht'] at ht
  cases ht
  refine ⟨?_, ?_, ?_⟩
  · rw [balanceOf_applyPosting]
    rw [if_neg (fun h => hne h.symm), if_pos rfl]
    omega
  · rw [balanceOf_applyPosting]
    rw [if_pos rfl, if_neg hne]
    omega
  · intro x hxf hxt
    rw [balanceOf_applyPosting]
    rw [if_neg (fun h => hxt h.symm), if_neg (fun h => hxf h.symm)]
    omega

/-- Witness for C7 on the concrete fixture: account 0 drops from 0 to
−10000, account 1 rises from 0 to 10000, account 99 stays at 0. -/
theorem C7_witness :
    (balanceOf exDBposted exTransfer.from_account_id =
      balanceOf exDB exTransfer.from_account_id - exTransfer.amount ∧
    balanceOf exDBposted exTransfer.to_account_id =
      balanceOf exDB exTransfer.to_account_id + exTransfer.amount ∧
    ∀ x, x ≠ exTransfer.from_account_id → x ≠ exTransfer.to_account_id →
      balanceOf exDBposted x = balanceOf exDB x) ∧
    balanceOf exDBposted 0 = -10000 ∧ balanceOf exDBposted 1 = 10000 :=
  ⟨C7_balance_delta exDB exDBposted 2 7 exTransfer rfl rfl (by decide),
    by decide, by decide⟩

/-- C8: creating a transfer validates source ≠ destination, amount > 0 and a
3-letter currency, failing with the distinguishable errors `SameAccount`,
`InvalidAmount` and `InvalidCurrency`; a failed creation persists nothing,
and a successful creation appends exactly one transfer in state `pending`. -/
theorem C8_create_transfer_validates (db : DB) (f t : Nat) (a : Int)
    (cur : String) (d : Option String) (i now : Nat) :
    (f = t →
      create_transfer db f t a cur d i now =
        Except.error CreateTransferError.SameAccount) ∧
    (f ≠ t → a ≤ 0 →
      create_transfer db f t a cur d i now =
        Except.error CreateTransferError.InvalidAmount) ∧
    (f ≠ t → 0 < a → cur.length ≠ 3 →
      create_transfer db f t a cur d i now =
        Except.error CreateTransferError.InvalidCurrency) ∧
    (∀ e, create_transfer db f t a cur d i now = Except.error e →
      applyOp db (Op.createTransfer f t a cur d i now) = db) ∧
    (∀ db2 tid, create_transfer db f t a cur d i now = Except.ok (db2, tid) →
      ∃ tr, db2.transfers = db.transfers ++ [tr] ∧
        tr.status = TransferStatus.pending ∧ tr.id = tid ∧
        tr.from_account_id = f ∧ tr.to_account_id = t ∧ tr.amount = a ∧
        tr.currency = cur ∧ tr.posted_at = none ∧
        db2.accounts = db.accounts ∧
        db2.ledger_entries = db.ledger_entries) := by
  refine ⟨?_, ?_, ?_, ?_, ?_⟩
  · intro h
    unfold create_transfer
    rw [if_pos h]
  · intro h1 h2
    unfold create_transfer
    rw [if_neg h1, if_pos h2]
  · intro h1 h2 h3
    unfold create_transfer
    rw [if_neg h1, if_neg (by omega), if_pos h3]
  · intro e he
    simp [applyOp, he]
  · intro db2 tid he
    unfold create_transfer at he
    split at he
    · exact absurd he (by simp)
    split at he
    · exact absurd he (by simp)
    split at he
    · exact absurd he (by simp)
    · rw [Except.ok.injEq, Prod.mk.injEq] at he
      obtain ⟨h2, h3⟩ := he
      exact ⟨_, by rw [← h2], rfl, by rw [← h3], rfl, rfl, rfl, rfl, rfl,
        by rw [← h2], by rw [← h2]⟩

/-- Witness for C8: a self-transfer fails with `SameAccount`, a zero amount
fails with `InvalidAmount` leaving the database unchanged, and a valid
creation appends a pending transfer. -/
theorem C8_witness :
    create_transfer exDB 0 0 5000 "USD" none 10 1 =
      Except.error CreateTransferError.SameAccount ∧
    create_transfer exDB 0 1 0 "USD" none 10 1 =
      Except.error CreateTransferError.InvalidAmount ∧
    applyOp exDB (Op.createTransfer 0 1 0 "USD" none 10 1) = exDB ∧
    (∃ tr, (applyOp exDB (Op.createTransfer 0 1 5000 "USD" none 10 1)).transfers =
        exDB.transfers ++ [tr] ∧
      tr.status = TransferStatus.pending ∧ tr.id = 3 ∧
      tr.from_account_id = 0 ∧ tr.to_account_id = 1 ∧ tr.amount = 5000 ∧
      tr.currency = "USD" ∧ tr.posted_at = none ∧
      (applyOp exDB (Op.createTransfer 0 1 5000 "USD" none 10 1)).accounts =
        exDB.accounts ∧
      (applyOp exDB (Op.createTransfer 0 1 5000 "USD" none 10 1)).ledger_entries =
        exDB.ledger_entries) :=
  ⟨(C8_create_transfer_validates exDB 0 0 5000 "USD" none 10 1).1 rfl,
    (C8_create_transfer_validates exDB 0 1 0 "USD" none 10 1).2.1
      (by decide) (by decide),
    (C8_create_transfer_validates exDB 0 1 0 "USD" none 10 1).2.2.2.1
      CreateTransferError.InvalidAmount
      ((C8_create_transfer_validates exDB 0 1 0 "USD" none 10 1).2.1
        (by decide) (by decide)),
    (C8_create_transfer_validates exDB 0 1 5000 "USD" none 10 1).2.2.2.2
      (applyOp exDB (Op.createTransfer 0 1 5000 "USD" none 10 1)) 3 rfl⟩

/-! Frame lemmas: how each operation touches each table. -/

theorem create_account_ok_elim {db db2 : DB} {u : Nat} {ty : AccountType}
    {cur nm : String} {now nid : Nat}
    (h : create_account db u ty cur nm now = Except.ok (db2, nid)) :
    cur.length = 3 ∧
    db.accounts.any (fun a =>
      decide (a.user_id = u ∧ a.type = ty ∧ a.currency = cur ∧
        a.name = nm)) = false ∧
    db2.accounts = db.accounts ++
      [⟨db.next_id, u, ty, cur, AccountStatus.active, nm, now, now⟩] ∧
    db2.transfers = db.transfers ∧
    db2.ledger_entries = db.ledger_entries := by
  unfold create_account at h
  split at h
  · exact absurd h (by simp)
  next hlen =>
    split at h
    · exact absurd h (by simp)
    next hany =>
      rw [Except.ok.injEq, Prod.mk.injEq] at h
      obtain ⟨h2, _⟩ := h
      exact ⟨not_not.mp hlen, Bool.not_eq_true _ ▸ Bool.of_not_eq_true hany,
        by rw [← h2], by rw [← h2], by rw [← h2]⟩

theorem create_transfer_ok_frame {db db2 : DB} {f t : Nat} {a : Int}
    {cur : String} {d : Option String} {i now tid : Nat}
    (h : create_transfer db f t a cur d i now = Except.ok (db2, tid)) :
    db2.accounts = db.accounts ∧
    db2.ledger_entries = db.ledger_entries := by
  unfold create_transfer at h
  split at h
  · exact absurd h (by simp)
  split at h
  · exact absurd h (by simp)
  split at h
  · exact absurd h (by simp)
  · rw [Except.ok.injEq, Prod.mk.injEq] at h
    obtain ⟨h2, _⟩ := h
    exact ⟨by rw [← h2], by rw [← h2]⟩

theorem currencySum_congr {db1 db2 : DB} (c : String)
    (h : db1.ledger_entries = db2.ledger_entries) :
    currencySum db1 c = currencySum db2 c := by
  unfold currencySum
  rw [h]

theorem currencySum_applyPosting (db : DB) (t : Transfer) (now : Nat)
    (c : String) :
    currencySum (applyPosting db t now) c = currencySum db c := by
  unfold currencySum applyPosting postingDebitRow postingCreditRow
  rw [List.filter_append, List.map_append, List.sum_append]
  by_cases h : t.currency = c <;> simp [h, entrySigned, List.filter_cons]

theorem foldl_seedCredit_accounts (now : Nat) (l : List Account) (db : DB) :
    (l.foldl (seedCredit now) db).accounts = db.accounts := by
  induction l generalizing db with
  | nil => rfl
  | cons a l ih => exact ih (seedCredit now db a)

theorem foldl_seedCredit_transfers (now : Nat) (l : List Account) (db : DB) :
    (l.foldl (seedCredit now) db).transfers = db.transfers := by
  induction l generalizing db with
  | nil => rfl
  | cons a l ih => exact ih (seedCredit now db a)

theorem foldl_seedCredit_ledger (now : Nat) (l : List Account) (db : DB) :
    ∃ tail, (l.foldl (seedCredit now) db).ledger_entries =
      db.ledger_entries ++ tail := by
  induction l generalizing db with
  | nil => exact ⟨[], by simp⟩
  | cons a l ih =>
    obtain ⟨tail, htail⟩ := ih (seedCredit now db a)
    refine ⟨seedCreditRow now db a :: tail, ?_⟩
    rw [List.foldl_cons, htail]
    show (db.ledger_entries ++ [_]) ++ tail = _
    rw [List.append_assoc]
    rfl

theorem seed_treasury_accounts (db : DB) (now : Nat) :
    (seed_treasury db now).accounts = db.accounts ∨
    ((seed_treasury db now).accounts =
        db.accounts ++ [seedTreasuryRow db now] ∧
      db.accounts.any (fun a =>
        decide (a.user_id = treasuryUserId ∧ a.type = AccountType.wallet ∧
          a.currency = "USD" ∧ a.name = "Treasury")) = false) := by
  unfold seed_treasury
  by_cases h : db.accounts.any (fun a =>
      decide (a.user_id = treasuryUserId ∧ a.type = AccountType.wallet ∧
        a.currency = "USD" ∧ a.name = "Treasury")) = true
  · left
    simp only [h, if_true]
    rw [foldl_seedCredit_accounts]
  · right
    simp only [if_neg h]
    rw [foldl_seedCredit_accounts]
    exact ⟨rfl, Bool.not_eq_true _ ▸ Bool.of_not_eq_true h⟩

theorem seed_treasury_transfers (db : DB) (now : Nat) :
    (seed_treasury db now).transfers = db.transfers := by
  unfold seed_treasury
  by_cases h : db.accounts.any (fun a =>
      decide (a.user_id = treasuryUserId ∧ a.type = AccountType.wallet ∧
        a.currency = "USD" ∧ a.name = "Treasury")) = true
  · simp only [h, if_true]
    rw [foldl_seedCredit_transfers]
  · simp only [if_neg h]
    rw [foldl_seedCredit_transfers]

theorem seed_treasury_ledger (db : DB) (now : Nat) :
    ∃ tail, (seed_treasury db now).ledger_entries =
      db.ledger_entries ++ tail := by
  unfold seed_treasury
  by_cases h : db.accounts.any (fun a =>
      decide (a.user_id = treasuryUserId ∧ a.type = AccountType.wallet ∧
        a.currency = "USD" ∧ a.name = "Treasury")) = true
  · simp only [h, if_true]
    exact foldl_seedCredit_ledger now _ db
  · simp only [if_neg h]
    exact foldl_seedCredit_ledger now _ _

theorem webhook_accounts (db : DB) (u : Nat) (amt : Int) (now : Nat) :
    (webhook_fallback_credit db u amt now).accounts = db.accounts ∨
    ((webhook_fallback_credit db u amt now).accounts =
        db.accounts ++ [webhookMainRow db u now] ∧
      db.accounts.find? (fun a =>
        decide (a.user_id = u ∧ a.currency = "USD")) = none) := by
  unfold webhook_fallback_credit
  cases h1 : db.accounts.find? (fun a =>
      decide (a.user_id = u ∧ a.currency = "USD" ∧ a.name = "Main")) with
  | some a => left; rfl
  | none =>
    cases h2 : db.accounts.find? (fun a =>
        decide (a.user_id = u ∧ a.currency = "USD")) with
    | some a => left; rfl
    | none => right; exact ⟨rfl, rfl⟩

theorem webhook_ledger (db : DB) (u : Nat) (amt : Int) (now : Nat) :
    ∃ tail, (webhook_fallback_credit db u amt now).ledger_entries =
      db.ledger_entries ++ tail := by
  unfold webhook_fallback_credit
  cases h1 : db.accounts.find? (fun a =>
      decide (a.user_id = u ∧ a.currency = "USD" ∧ a.name = "Main")) with
  | some a => exact ⟨_, rfl⟩
  | none =>
    cases h2 : db.accounts.find? (fun a =>
        decide (a.user_id = u ∧ a.currency = "USD")) with
    | some a => exact ⟨_, rfl⟩
    | none => exact ⟨_, rfl⟩

/-- Two accounts agree on the `(user_id, type, currency, name)` tuple
covered by the unique index `accounts_user_type_currency_name_uidx`. -/
def sameTuple (a b : Account) : Prop :=
  a.user_id = b.user_id ∧ a.type = b.type ∧ a.currency = b.currency ∧
    a.name = b.name

theorem account_append_inv {l : List Account} {x : Account}
    (hp : l.Pairwise (fun a b => ¬ sameTuple a b))
    (hl : ∀ a ∈ l, a.currency.length = 3)
    (hx : ∀ a ∈ l, ¬ sameTuple a x) (hc : x.currency.length = 3) :
    (l ++ [x]).Pairwise (fun a b => ¬ sameTuple a b) ∧
    ∀ a ∈ l ++ [x], a.currency.length = 3 := by
  constructor
  · rw [List.pairwise_append]
    refine ⟨hp, List.pairwise_singleton _ _, ?_⟩
    intro a ha b hb
    rw [List.mem_singleton] at hb
    subst hb
    exact hx a ha
  · intro a ha
    rcases List.mem_append.mp ha with h | h
    · exact hl a h
    · rw [List.mem_singleton] at h
      subst h
      exact hc

theorem reachable_accounts_inv {db : DB} (h : Reachable db) :
    db.accounts.Pairwise (fun a b => ¬ sameTuple a b) ∧
    ∀ a ∈ db.accounts, a.currency.length = 3 := by
  induction h with
  | init => exact ⟨List.Pairwise.nil, by intro a ha; cases ha⟩
  | @step db hr op ih =>
    obtain ⟨hp, hl⟩ := ih
    cases op with
    | createAccount u ty cur nm now =>
      cases hca : create_account db u ty cur nm now with
      | error e => simpa [applyOp, hca] using ⟨hp, hl⟩
      | ok p =>
        obtain ⟨db2, nid⟩ := p
        obtain ⟨hlen, hany, hacc, -, -⟩ := create_account_ok_elim hca
        have hgoal : (applyOp db (Op.createAccount u ty cur nm now)) = db2 := by
          simp [applyOp, hca]
        rw [hgoal, hacc]
        refine account_append_inv hp hl ?_ hlen
        intro a ha hst
        have := (List.any_eq_false.mp hany) a ha
        rw [decide_eq_true_eq] at this
        exact this hst
    | createTransfer f t a cur d i now =>
      cases hct : create_transfer db f t a cur d i now with
      | error e => simpa [applyOp, hct] using ⟨hp, hl⟩
      | ok p =>
        obtain ⟨db2, tid⟩ := p
        obtain ⟨hacc, -⟩ := create_transfer_ok_frame hct
        have hgoal : (applyOp db (Op.createTransfer f t a cur d i now)) = db2 := by
          simp [applyOp, hct]
        rw [hgoal, hacc]
        exact ⟨hp, hl⟩
    | post tid now =>
      cases hpt : post_transfer db tid now with
      | error e => simpa [applyOp, hpt] using ⟨hp, hl⟩
      | ok db2 =>
        obtain ⟨t, fa, ta, -, -, -, -, -, -, rfl⟩ := post_transfer_ok_elim hpt
        have hgoal : (applyOp db (Op.post tid now)) = applyPosting db t now := by
          simp [applyOp, hpt]
        rw [hgoal]
        exact ⟨hp, hl⟩
    | seedTreasury now =>
      have hgoal : applyOp db (Op.seedTreasury now) = seed_treasury db now :=
        rfl
      rw [hgoal]
      rcases seed_treasury_accounts db now with hacc | ⟨hacc, hany⟩
      · rw [hacc]
        exact ⟨hp, hl⟩
      · rw [hacc]
        have hc3 : (seedTreasuryRow db now).currency.length = 3 := rfl
        refine account_append_inv hp hl ?_ hc3
        intro a ha hst
        have := (List.any_eq_false.mp hany) a ha
        rw [decide_eq_true_eq] at this
        exact this hst
    | webhookCredit u amt now =>
      have hgoal : applyOp db (Op.webhookCredit u amt now) =
          if amt ≤ 0 then db else webhook_fallback_credit db u amt now := rfl
      rw [hgoal]
      by_cases hamt : amt ≤ 0
      · rw [if_pos hamt]
        exact ⟨hp, hl⟩
      · rw [if_neg hamt]
        rcases webhook_accounts db u amt now with hacc | ⟨hacc, hfind⟩
        · rw [hacc]
          exact ⟨hp, hl⟩
        · rw [hacc]
          have hc3 : (webhookMainRow db u now).currency.length = 3 := rfl
          refine account_append_inv hp hl ?_ hc3
          intro a ha hst
          have hnp := List.find?_eq_none.mp hfind a ha
          rw [decide_eq_true_eq] at hnp
          obtain ⟨h1, -, h3, -⟩ := hst
          exact hnp ⟨h1, h3⟩

/-- C9: in every reachable state the `(owner, kind, currency, name)` tuple
is unique across accounts, and creating an account with an already-present
tuple fails with `DuplicateAccount` leaving the registry unchanged. -/
theorem C9_account_tuple_unique (db : DB) (h : Reachable db) :
    db.accounts.Pairwise (fun a b => ¬ sameTuple a b) ∧
    ∀ u ty cur nm now,
      (∃ a ∈ db.accounts, a.user_id = u ∧ a.type = ty ∧ a.currency = cur ∧
        a.name = nm) →
      create_account db u ty cur nm now =
        Except.error CreateAccountError.DuplicateAccount ∧
      applyOp db (Op.createAccount u ty cur nm now) = db := by
  obtain ⟨hp, hl⟩ := reachable_accounts_inv h
  refine ⟨hp, ?_⟩
  intro u ty cur nm now ⟨a, ha, h1, h2, h3, h4⟩
  have hlen : cur.length = 3 := h3 ▸ hl a ha
  have herr : create_account db u ty cur nm now =
      Except.error CreateAccountError.DuplicateAccount := by
    unfold create_account
    rw [if_neg (by rw [hlen]; exact fun hne => hne rfl)]
    rw [if_pos]
    exact List.any_eq_true.mpr ⟨a, ha, decide_eq_true ⟨h1, h2, h3, h4⟩⟩
  exact ⟨herr, by simp [applyOp, herr]⟩

/-- Witness for C9: after creating user 2's USD `Main` wallet, creating the
same tuple again fails with `DuplicateAccount` and changes nothing. -/
theorem C9_witness :
    create_account (applyOp emptyDB
        (Op.createAccount 2 AccountType.wallet "USD" "Main" 0))
      2 AccountType.wallet "USD" "Main" 5 =
      Except.error CreateAccountError.DuplicateAccount ∧
    applyOp (applyOp emptyDB
        (Op.createAccount 2 AccountType.wallet "USD" "Main" 0))
      (Op.createAccount 2 AccountType.wallet "USD" "Main" 5) =
      applyOp emptyDB (Op.createAccount 2 AccountType.wallet "USD" "Main" 0) :=
  (C9_account_tuple_unique
      (applyOp emptyDB (Op.createAccount 2 AccountType.wallet "USD" "Main" 0))
      (Reachable.step Reachable.init _)).2
    2 AccountType.wallet "USD" "Main" 5 (by decide)

theorem currencySum_applyOp_core (db : DB) (op : Op) (c : String)
    (hop : Op.isDirectLedgerWrite op = false) :
    currencySum (applyOp db op) c = currencySum db c := by
  cases op with
  | createAccount u ty cur nm now =>
    cases hca : create_account db u ty cur nm now with
    | error e => simp [applyOp, hca]
    | ok p =>
      obtain ⟨db2, nid⟩ := p
      obtain ⟨-, -, -, -, hled⟩ := create_account_ok_elim hca
      have hgoal : applyOp db (Op.createAccount u ty cur nm now) = db2 := by
        simp [applyOp, hca]
      rw [hgoal]
      exact currencySum_congr c hled
  | createTransfer f t a cur d i now =>
    cases hct : create_transfer db f t a cur d i now with
    | error e => simp [applyOp, hct]
    | ok p =>
      obtain ⟨db2, tid⟩ := p
      obtain ⟨-, hled⟩ := create_transfer_ok_frame hct
      have hgoal : applyOp db (Op.createTransfer f t a cur d i now) = db2 := by
        simp [applyOp, hct]
      rw [hgoal]
      exact currencySum_congr c hled
  | post tid now =>
    cases hpt : post_transfer db tid now with
    | error e => simp [applyOp, hpt]
    | ok db2 =>
      obtain ⟨t, fa, ta, -, -, -, -, -, -, rfl⟩ := post_transfer_ok_elim hpt
      have hgoal : applyOp db (Op.post tid now) = applyPosting db t now := by
        simp [applyOp, hpt]
      rw [hgoal]
      exact currencySum_applyPosting db t now c
  | seedTreasury now => simp [Op.isDirectLedgerWrite] at hop
  | webhookCredit u amt now => simp [Op.isDirectLedgerWrite] at hop

/-- C2, counterexample: the treasury provisioning migration is one of the
system's writers, its resulting state is reachable, and it leaves the USD
signed ledger sum at +1000000.00 rather than zero. -/
theorem C2_counterexample :
    Reachable (applyOp emptyDB (Op.seedTreasury 0)) ∧
    currencySum (applyOp emptyDB (Op.seedTreasury 0)) "USD" ≠ 0 :=
  ⟨Reachable.step Reachable.init _, by decide⟩

/-- C2 as amended: in every state reachable by account creation, transfer
creation and posting alone — excluding the treasury seed and the webhook
fallback direct credit, which insert unmatched credits — the signed sum of
ledger entries of every currency is zero. -/
theorem C2_zero_sum_for_core_ops (db : DB) (h : ReachableCore db)
    (c : String) : currencySum db c = 0 := by
  induction h with
  | init => rfl
  | @step db hr op hop ih =>
    rw [currencySum_applyOp_core db op c hop]
    exact ih

/-- Witness for C2: a four-step core run (two accounts, one transfer,
posted) ends with a zero USD signed sum. -/
theorem C2_witness :
    currencySum
      (applyOp (applyOp (applyOp (applyOp emptyDB
        (Op.createAccount 10 AccountType.wallet "USD" "Main" 0))
        (Op.createAccount 11 AccountType.wallet "USD" "Main" 0))
        (Op.createTransfer 0 1 10000 "USD" none 10 0))
        (Op.post 2 1)) "USD" = 0 :=
  C2_zero_sum_for_core_ops _
    (ReachableCore.step (ReachableCore.step (ReachableCore.step
      (ReachableCore.step ReachableCore.init
        (Op.createAccount 10 AccountType.wallet "USD" "Main" 0) rfl)
        (Op.createAccount 11 AccountType.wallet "USD" "Main" 0) rfl)
        (Op.createTransfer 0 1 10000 "USD" none 10 0) rfl)
        (Op.post 2 1) rfl) "USD"

/-- C5, counterexample: the Stripe webhook fallback is an operation of the
system other than the posting engine, its resulting state is reachable, and
it creates a ledger entry. -/
theorem C5_counterexample :
    Op.isPost (Op.webhookCredit 7 5000 0) = false ∧
    Reachable (applyOp emptyDB (Op.webhookCredit 7 5000 0)) ∧
    (applyOp emptyDB (Op.webhookCredit 7 5000 0)).ledger_entries ≠
      emptyDB.ledger_entries :=
  ⟨rfl, Reachable.step Reachable.init _, by decide⟩

/-- C5 as amended: every operation only appends to the ledger — entries are
never updated or deleted — and the operations that do create entries are
exactly the posting engine, the treasury seed and the webhook fallback
direct credit; account and transfer creation never write ledger rows. -/
theorem C5_ledger_append_only_writers (db : DB) (op : Op) :
    (∃ tail, (applyOp db op).ledger_entries = db.ledger_entries ++ tail) ∧
    ((applyOp db op).ledger_entries ≠ db.ledger_entries →
      Op.isPost op = true ∨ Op.isDirectLedgerWrite op = true) := by
  cases op with
  | createAccount u ty cur nm now =>
    have hled : (applyOp db (Op.createAccount u ty cur nm now)).ledger_entries =
        db.ledger_entries := by
      cases hca : create_account db u ty cur nm now with
      | error e => simp [applyOp, hca]
      | ok p =>
        obtain ⟨db2, nid⟩ := p
        obtain ⟨-, -, -, -, hl⟩ := create_account_ok_elim hca
        simpa [applyOp, hca] using hl
    exact ⟨⟨[], by rw [hled, List.append_nil]⟩, fun hne => absurd hled hne⟩
  | createTransfer f t a cur d i now =>
    have hled : (applyOp db (Op.createTransfer f t a cur d i now)).ledger_entries =
        db.ledger_entries := by
      cases hct : create_transfer db f t a cur d i now with
      | error e => simp [applyOp, hct]
      | ok p =>
        obtain ⟨db2, tid⟩ := p
        obtain ⟨-, hl⟩ := create_transfer_ok_frame hct
        simpa [applyOp, hct] using hl
    exact ⟨⟨[], by rw [hled, List.append_nil]⟩, fun hne => absurd hled hne⟩
  | post tid now =>
    refine ⟨?_, fun _ => Or.inl rfl⟩
    cases hpt : post_transfer db tid now with
    | error e => exact ⟨[], by simp [applyOp, hpt]⟩
    | ok db2 =>
      obtain ⟨t, fa, ta, -, -, -, -, -, -, rfl⟩ := post_transfer_ok_elim hpt
      refine ⟨[postingDebitRow db t now, postingCreditRow db t now], ?_⟩
      have hgoal : applyOp db (Op.post tid now) = applyPosting db t now := by
        simp [applyOp, hpt]
      rw [hgoal]
      rfl
  | seedTreasury now =>
    exact ⟨seed_treasury_ledger db now, fun _ => Or.inr rfl⟩
  | webhookCredit u amt now =>
    refine ⟨?_, fun _ => Or.inr rfl⟩
    have hgoal : applyOp db (Op.webhookCredit u amt now) =
        if amt ≤ 0 then db else webhook_fallback_credit db u amt now := rfl
    rw [hgoal]
    by_cases hamt : amt ≤ 0
    · rw [if_pos hamt]
      exact ⟨[], by rw [List.append_nil]⟩
    · rw [if_neg hamt]
      exact webhook_ledger db u amt now

/-- Witness for C5: the webhook fallback changes the ledger by appending,
and only a post or direct-write operation can change it. -/
theorem C5_witness :
    (∃ tail, (applyOp exDB (Op.webhookCredit 7 5000 0)).ledger_entries =
      exDB.ledger_entries ++ tail) ∧
    (Op.isPost (Op.webhookCredit 7 5000 0) = true ∨
      Op.isDirectLedgerWrite (Op.webhookCredit 7 5000 0) = true) :=
  ⟨(C5_ledger_append_only_writers exDB (Op.webhookCredit 7 5000 0)).1,
    (C5_ledger_append_only_writers exDB (Op.webhookCredit 7 5000 0)).2
      (by decide)⟩

end PayMagic
